import Mathlib

/-!
# Verification of the AI-locator selector-resolution engine

Shallow embedding of `src/index.ts` of the playwright-gemini-ai-locator
repository.  Pure data flow is embedded directly; the effectful parts
(file system, HTTP backend, live page, clock) are passed in explicitly as
values or oracles, and each embedded operation returns a trace of the
observable effects it performs (waits, credential use, cache writes,
model-query counts) alongside its result.

JavaScript-specific semantics are embedded faithfully where the source
relies on them: truthiness tests (`options?.retries || 3`,
`if (apiKey)`, `if (selector)`, `cache[pageUrl]?.[description] && ...`,
`headers.get('Retry-After') || '30'`), string interpolation of
`undefined`, and `parseInt`.
-/

set_option autoImplicit false

namespace AILocator

/-- JS truthiness of a possibly-absent string: `undefined`/`null` and the
empty string are falsy, every other string is truthy. -/
def strTruthy : Option String → Bool
  | none => false
  | some s => s ≠ ""

/-- JS string interpolation `${x}` of a possibly-undefined value:
`undefined` interpolates as the literal text "undefined". -/
def jsInterp : Option String → String
  | none => "undefined"
  | some s => s

/-- Value of the longest leading decimal-digit prefix, `none` when there is
no leading digit (models JS `parseInt` returning `NaN`). -/
def digitsVal (cs : List Char) : Option Nat :=
  let ds := cs.takeWhile (·.isDigit)
  if ds = [] then none
  else some (ds.foldl (fun a c => a * 10 + (c.toNat - 48)) 0)

/-- Model of JS `String.prototype.startsWith`, as a character-list prefix
test (computable by the kernel, unlike `String.startsWith`). -/
def jsStartsWith (s pre : String) : Bool :=
  pre.data.isPrefixOf s.data

/-- Model of JS `String.prototype.trim`: drop whitespace from both ends. -/
def jsTrim (s : String) : String :=
  ⟨((s.data.dropWhile (·.isWhitespace)).reverse.dropWhile (·.isWhitespace)).reverse⟩

/-- Model of the JS builtin `parseInt` (decimal): skip leading whitespace,
optional sign, longest digit prefix; `none` models `NaN`. -/
def jsParseInt (s : String) : Option Int :=
  match s.data.dropWhile (·.isWhitespace) with
  | '-' :: rest => (digitsVal rest).map (fun n => -(n : Int))
  | '+' :: rest => (digitsVal rest).map (fun n => (n : Int))
  | cs => (digitsVal cs).map (fun n => (n : Int))

/-! ## Selector cache (`SelectorCache`, `loadCache`)

The TS `SelectorCache` is a two-level JS object
`{ [pageUrl]: { [description]: string } }`.  We embed it as a two-level
association list; JS object-key semantics (at most one binding per key,
assignment overwrites in place) correspond to first-match lookup together
with the well-formedness predicate `cacheWF` below. -/

/-- Inner level of the selector cache: description ↦ selector. -/
abbrev InnerCache := List (String × String)

/-- The selector cache: page URL ↦ (description ↦ selector). -/
abbrev SelectorCache := List (String × InnerCache)

/-- First-match lookup in the inner map (JS `obj[description]`). -/
def innerLookup : InnerCache → String → Option String
  | [], _ => none
  | (d, s) :: rest, desc => if d = desc then some s else innerLookup rest desc

/-- Two-level lookup `cache[pageUrl]?.[description]`. -/
def cacheLookup : SelectorCache → String → String → Option String
  | [], _, _ => none
  | (u, inner) :: rest, url, desc =>
      if u = url then innerLookup inner desc else cacheLookup rest url desc

/-- Assignment `inner[description] = selector`: overwrite the first binding
of the key, append when absent. -/
def innerInsert : InnerCache → String → String → InnerCache
  | [], desc, sel => [(desc, sel)]
  | (d, s) :: rest, desc, sel =>
      if d = desc then (d, sel) :: rest else (d, s) :: innerInsert rest desc sel

/-- `if (!cache[pageUrl]) cache[pageUrl] = {}; cache[pageUrl][description] = selector`:
update the first binding of the URL, append a fresh inner map when absent. -/
def cacheInsert : SelectorCache → String → String → String → SelectorCache
  | [], url, desc, sel => [(url, [(desc, sel)])]
  | (u, inner) :: rest, url, desc, sel =>
      if u = url then (u, innerInsert inner desc sel) :: rest
      else (u, inner) :: cacheInsert rest url desc sel

/-- Well-formedness of the embedding: no duplicate keys at either level,
mirroring the fact that JS objects bind each key at most once. -/
def cacheWF (c : SelectorCache) : Prop :=
  (c.map Prod.fst).Nodup ∧ ∀ p ∈ c, (p.2.map Prod.fst).Nodup

/-- State of the persisted cache file as `loadCache` can encounter it. -/
inductive FileState where
  | absent
  | unreadable
  | present (contents : String)
  deriving DecidableEq

/-- Embedding of `loadCache`: `fs.readFile` then `JSON.parse` inside
`try/catch`, returning `{}` on any read or parse failure.  `parse`
abstracts `JSON.parse` producing a two-level mapping. -/
def loadCache (parse : String → Option SelectorCache) : FileState → SelectorCache
  | .present s =>
      match parse s with
      | some c => c
      | none => []
  | .absent => []
  | .unreadable => []

/-! ## Token cache (`getValidAccessToken`) -/

/-- `TokenCache` from the source: a bearer token and its acquisition
timestamp (milliseconds). -/
structure TokenCache where
  token : String
  timestamp : Int
  deriving DecidableEq

/-- Embedding of `getValidAccessToken`.  Inputs: the current in-memory
token cache (the `tokenCache` global), `Date.now()`, and the token the
identity backend would return (`auth.getAccessToken()`).  Output: the
returned token, the token cache after the call, and whether a fresh
acquisition was performed. -/
def getValidAccessToken (tokenCache : Option TokenCache) (currentTime : Int)
    (newToken : String) : String × TokenCache × Bool :=
  match tokenCache with
  | none => (newToken, ⟨newToken, currentTime⟩, true)
  | some tc =>
      if currentTime - tc.timestamp > 59 * 60 * 1000 then
        (newToken, ⟨newToken, currentTime⟩, true)
      else
        (tc.token, tc, false)

/-! ## Model client (`queryGeminiAPI`, `getCurrentAPIEndpoint`) -/

/-- The environment variables `queryGeminiAPI` reads. -/
structure GeminiEnv where
  projectId : Option String
  location : Option String
  model : Option String
  apiKey : Option String

/-- The one HTTP response the single `fetch` of a `queryGeminiAPI` call
receives.  `retryAfterHeader` is `headers.get('Retry-After')`;
`firstCandidateText` is `data.candidates[0].content.parts[0].text`, `none`
when the JSON body is malformed (missing candidates/parts). -/
structure HttpResponse where
  status : Nat
  statusText : String
  retryAfterHeader : Option String
  firstCandidateText : Option String

/-- Blocking wait performed by a call: none, a concrete number of
milliseconds, or the `NaN` wait produced by an unparsable Retry-After
header. -/
inductive SleepEvent where
  | noSleep
  | sleptMs (ms : Int)
  | sleptNaN
  deriving DecidableEq

/-- Observable behaviour of one `queryGeminiAPI` call. -/
structure QueryOutcome where
  url : String
  authHeader : Option String
  credentialInvoked : Bool
  tokenCacheAfter : Option TokenCache
  requestsIssued : Nat
  slept : SleepEvent
  result : Except String String

/-- The key-authenticated endpoint URL built by `queryGeminiAPI`. -/
def keyEndpointUrl (env : GeminiEnv) (k : String) : String :=
  "https://generativelanguage.googleapis.com/v1beta/models/" ++ jsInterp env.model
    ++ ":generateContent?key=" ++ k

/-- The token-authenticated endpoint URL built by `queryGeminiAPI`. -/
def tokenEndpointUrl (env : GeminiEnv) : String :=
  "https://" ++ jsInterp env.location ++ "-aiplatform.googleapis.com/v1/projects/"
    ++ jsInterp env.projectId ++ "/locations/" ++ jsInterp env.location
    ++ "/publishers/google/models/" ++ jsInterp env.model ++ ":generateContent"

/-- `parseInt(response.headers.get('Retry-After') || '30') * 1000` followed
by `wait(...)`: a missing or empty header defaults to "30"; an unparsable
header gives a `NaN` wait. -/
def rateLimitSleep (h : Option String) : SleepEvent :=
  let hdr := match h with
    | none => "30"
    | some s => if s = "" then "30" else s
  match jsParseInt hdr with
  | some n => .sleptMs (n * 1000)
  | none => .sleptNaN

/-- Result value of a `queryGeminiAPI` call as a function of the HTTP
response alone: 429 throws the retryable rate-limit error, any other
non-success status throws the generic failure with the status text, a
success returns the trimmed first-candidate text, and a malformed body
throws (the runtime `TypeError` from the unchecked field accesses). -/
def responseResult (resp : HttpResponse) : Except String String :=
  if resp.status = 429 then
    .error "Gemini API request failed due to rate limiting."
  else if ¬ (200 ≤ resp.status ∧ resp.status < 300) then
    .error ("Gemini API request failed: " ++ resp.statusText)
  else
    match resp.firstCandidateText with
    | some t => .ok (jsTrim t)
    | none => .error "TypeError: cannot read first candidate of malformed response"

/-- Embedding of `queryGeminiAPI`.  Inputs: the environment, the in-memory
token cache with `Date.now()` and the backend token (for the
`getValidAccessToken` call of the token branch), and the HTTP response the
single `fetch` receives.  A truthy API key selects the key endpoint and
bypasses the credential provider entirely; otherwise the token endpoint is
used with a bearer token from `getValidAccessToken`.  The call issues
exactly one request; on 429 it sleeps per the Retry-After header and then
fails with the retryable error (it never re-issues the request). -/
def queryGeminiAPI (env : GeminiEnv) (tokenCache : Option TokenCache)
    (currentTime : Int) (newToken : String) (resp : HttpResponse) : QueryOutcome :=
  let keyed := strTruthy env.apiKey
  let acc := getValidAccessToken tokenCache currentTime newToken
  { url := if keyed then keyEndpointUrl env (jsInterp env.apiKey) else tokenEndpointUrl env
    authHeader := if keyed then none else some ("Bearer " ++ acc.1)
    credentialInvoked := !keyed
    tokenCacheAfter := if keyed then tokenCache else some acc.2.1
    requestsIssued := 1
    slept := if resp.status = 429 then rateLimitSleep resp.retryAfterHeader else .noSleep
    result := responseResult resp }

/-- Embedding of `getCurrentAPIEndpoint`: reports the key-based endpoint
exactly when the API-key variable is truthy. -/
def getCurrentAPIEndpoint (apiKey : Option String) : String :=
  if strTruthy apiKey then
    "API key based endpoint (generativelanguage.googleapis.com)"
  else
    "Access token based endpoint (aiplatform.googleapis.com)"

/-! ## Selector resolver (`getAiSelector`)

The resolver's interaction with the outside world during one call:
`elemExists sel` is `await page.$(sel) !== null` (the page is assumed
stable during the call, as in the source's single-caller model), and
`responses k` is the outcome of the (k+1)-st `queryGeminiAPI` invocation
of this call — `ok text` its returned (trimmed) text, `err` any exception
it throws (rate-limit retryable error, non-success status, malformed
response, credential failure).

The `while (retries < maxRetries)` loop is embedded with structural fuel
`fuel = maxRetries - retries`: every loop iteration either returns or
increments `retries` by exactly one, so the two counters stay in sync,
and a non-positive `maxRetries` (fuel `(maxRetriesOf o).toNat = 0`) runs
zero iterations exactly as the JS guard does. -/

/-- Options record `AILocatorOptions` from the source. -/
structure AILocatorOptions where
  timeout : Option Int := none
  retries : Option Int := none
  highlightDuration : Option Int := none

/-- `const maxRetries = options?.retries || 3`: any falsy `retries`
(absent, `0`, `NaN`) falls back to 3; other values, including negative
ones, are used as given. -/
def maxRetriesOf (options : AILocatorOptions) : Int :=
  match options.retries with
  | some n => if n = 0 then 3 else n
  | none => 3

/-- Result of a resolution call: the returned selector with the saved
cache, or the thrown error message with the (unwritten) cache; `queries`
counts `queryGeminiAPI` invocations made by the call. -/
inductive Outcome where
  | success (selector : String) (cache : SelectorCache) (queries : Nat)
  | failure (msg : String) (cache : SelectorCache) (queries : Nat)
  deriving DecidableEq

/-- What one model query contributes to the attempt, per the source's
`try/catch` around `queryGeminiAPI`: a thrown error or an `"ERROR:"`
response advances the retry counter (`continue`); any other response text
becomes the candidate selector. -/
inductive ModelResult where
  | ok (text : String)
  | err (msg : String)

/-- One model-query step of the loop body. -/
def modelAttempt (response : ModelResult) : Option String :=
  match response with
  | .err _ => none
  | .ok text => if jsStartsWith text "ERROR:" then none else some text

/-- The retry loop of `getAiSelector`, on fuel `maxRetries - retries`.
Each iteration mirrors the source body: on the first attempt
(`retries === 0`) a truthy cached selector is used without querying the
model; otherwise the model is queried and a thrown error or `"ERROR:"`
response advances the counter; a truthy candidate is validated with
`page.$` — on a match the cache is updated, saved, and the selector
returned, on no match (or a falsy candidate) the counter advances.
Exhausted fuel is the `throw` after the loop. -/
def resolveAttempts (pageUrl description : String) (elemExists : String → Bool)
    (responses : Nat → ModelResult) (cache : SelectorCache) :
    Nat → Nat → Nat → Outcome
  | 0, _, queries =>
      .failure ("Failed to generate a valid selector for description: " ++ description)
        cache queries
  | fuel + 1, retries, queries =>
      if strTruthy (cacheLookup cache pageUrl description) && retries == 0 then
        -- use the (truthy) cached selector on the first try, without a query
        if ((cacheLookup cache pageUrl description).getD "") ≠ "" then
          if elemExists ((cacheLookup cache pageUrl description).getD "") then
            .success ((cacheLookup cache pageUrl description).getD "")
              (cacheInsert cache pageUrl description
                ((cacheLookup cache pageUrl description).getD ""))
              queries
          else
            resolveAttempts pageUrl description elemExists responses cache
              fuel (retries + 1) queries
        else
          resolveAttempts pageUrl description elemExists responses cache
            fuel (retries + 1) queries
      else
        -- query the model for a new selector
        match modelAttempt (responses queries) with
        | some selector =>
            if selector ≠ "" then
              if elemExists selector then
                .success selector (cacheInsert cache pageUrl description selector)
                  (queries + 1)
              else
                resolveAttempts pageUrl description elemExists responses cache
                  fuel (retries + 1) (queries + 1)
            else
              resolveAttempts pageUrl description elemExists responses cache
                fuel (retries + 1) (queries + 1)
        | none =>
            resolveAttempts pageUrl description elemExists responses cache
              fuel (retries + 1) (queries + 1)

/-- Embedding of `getAiSelector`: load-time cache snapshot, page URL, then
the retry loop with `retries = 0` and fuel `maxRetriesOf options`. -/
def getAiSelector (pageUrl : String) (elemExists : String → Bool)
    (responses : Nat → ModelResult) (cache : SelectorCache)
    (description : String) (options : AILocatorOptions) : Outcome :=
  resolveAttempts pageUrl description elemExists responses cache
    (maxRetriesOf options).toNat 0 0

/-! ## Highlight (`highlightAILocator`) -/

/-- Inline style state of a DOM element: the two properties the highlight
touches, plus all remaining styling (untouched by the effect). -/
structure ElementStyle where
  outline : String
  zIndex : String
  otherStyles : List (String × String)
  deriving DecidableEq

/-- Observable behaviour of the page-side highlight script. -/
structure HighlightTrace where
  duringStyle : Option ElementStyle
  finalStyle : Option ElementStyle
  waitedMs : Option Int
  deriving DecidableEq

/-- The page-side effect of `highlightAILocator` (`page.evaluate` body):
if `document.querySelector` finds an element, save its outline and
z-index, apply the highlight styles, and after `dur` milliseconds restore
the saved two properties; otherwise resolve immediately, changing
nothing. -/
def highlightEffect (element : Option ElementStyle) (dur : Int) : HighlightTrace :=
  match element with
  | some st =>
      let originalOutline := st.outline
      let originalZIndex := st.zIndex
      let during := { st with outline := "3px solid red", zIndex := "10000" }
      let restored := { during with outline := originalOutline, zIndex := originalZIndex }
      ⟨some during, some restored, some dur⟩
  | none => ⟨none, none, none⟩

/-- `options?.highlightDuration || 3000`: falsy duration falls back to
3000 ms. -/
def effectiveHighlightDuration (options : AILocatorOptions) : Int :=
  match options.highlightDuration with
  | some d => if d = 0 then 3000 else d
  | none => 3000

/-- Embedding of `highlightAILocator`: resolve a selector, then run the
page-side effect on the element `document.querySelector` finds for it;
resolution failure propagates (no effect runs). -/
def highlightAILocator (pageUrl : String) (elemExists : String → Bool)
    (responses : Nat → ModelResult) (cache : SelectorCache)
    (querySelector : String → Option ElementStyle)
    (description : String) (options : AILocatorOptions) : Option HighlightTrace :=
  match getAiSelector pageUrl elemExists responses cache description options with
  | .success sel _ _ =>
      some (highlightEffect (querySelector sel) (effectiveHighlightDuration options))
  | .failure _ _ _ => none

/-! ## Lemmas: cache algebra -/

lemma innerLookup_innerInsert_self (inner : InnerCache) (desc sel : String) :
    innerLookup (innerInsert inner desc sel) desc = some sel := by
  induction inner with
  | nil => simp [innerInsert, innerLookup]
  | cons p rest ih =>
      obtain ⟨d, s⟩ := p
      by_cases hd : d = desc
      · simp [innerInsert, hd, innerLookup]
      · simp [innerInsert, hd, innerLookup, ih]

lemma cacheLookup_cacheInsert_self (c : SelectorCache) (url desc sel : String) :
    cacheLookup (cacheInsert c url desc sel) url desc = some sel := by
  induction c with
  | nil => simp [cacheInsert, cacheLookup, innerLookup]
  | cons p rest ih =>
      obtain ⟨u, inner⟩ := p
      by_cases hu : u = url
      · simp [cacheInsert, hu, cacheLookup, innerLookup_innerInsert_self]
      · simp [cacheInsert, hu, cacheLookup, ih]

lemma innerInsert_self (inner : InnerCache) (desc sel : String)
    (h : innerLookup inner desc = some sel) : innerInsert inner desc sel = inner := by
  induction inner with
  | nil => simp [innerLookup] at h
  | cons p rest ih =>
      obtain ⟨d, s⟩ := p
      by_cases hd : d = desc
      · rw [innerLookup, if_pos hd] at h
        obtain rfl : s = sel := Option.some.inj h
        simp [innerInsert, hd]
      · rw [innerLookup, if_neg hd] at h
        simp [innerInsert, hd, ih h]

lemma cacheInsert_self (c : SelectorCache) (url desc sel : String)
    (h : cacheLookup c url desc = some sel) : cacheInsert c url desc sel = c := by
  induction c with
  | nil => simp [cacheLookup] at h
  | cons p rest ih =>
      obtain ⟨u, inner⟩ := p
      by_cases hu : u = url
      · rw [cacheLookup, if_pos hu] at h
        simp [cacheInsert, hu, innerInsert_self inner desc sel h]
      · rw [cacheLookup, if_neg hu] at h
        simp [cacheInsert, hu, ih h]

lemma innerInsert_keys_subset (inner : InnerCache) (desc sel x : String)
    (hx : x ∈ (innerInsert inner desc sel).map Prod.fst) :
    x ∈ inner.map Prod.fst ∨ x = desc := by
  induction inner with
  | nil =>
      right
      simpa [innerInsert] using hx
  | cons p rest ih =>
      obtain ⟨d, s⟩ := p
      by_cases hd : d = desc
      · simp only [innerInsert, if_pos hd, List.map_cons, List.mem_cons] at hx ⊢
        exact .inl hx
      · simp only [innerInsert, if_neg hd, List.map_cons, List.mem_cons] at hx ⊢
        rcases hx with h | h
        · exact .inl (.inl h)
        · rcases ih h with h' | h'
          · exact .inl (.inr h')
          · exact .inr h'

lemma innerInsert_nodup (inner : InnerCache) (desc sel : String)
    (h : (inner.map Prod.fst).Nodup) :
    ((innerInsert inner desc sel).map Prod.fst).Nodup := by
  induction inner with
  | nil => simp [innerInsert]
  | cons p rest ih =>
      obtain ⟨d, s⟩ := p
      simp only [List.map_cons, List.nodup_cons] at h
      by_cases hd : d = desc
      · simp only [innerInsert, if_pos hd, List.map_cons, List.nodup_cons]
        exact ⟨h.1, h.2⟩
      · simp only [innerInsert, if_neg hd, List.map_cons, List.nodup_cons]
        refine ⟨fun hmem => ?_, ih h.2⟩
        rcases innerInsert_keys_subset rest desc sel d hmem with h' | h'
        · exact h.1 h'
        · exact hd h'

lemma cacheInsert_keys_subset (c : SelectorCache) (url desc sel : String) (x : String)
    (hx : x ∈ (cacheInsert c url desc sel).map Prod.fst) :
    x ∈ c.map Prod.fst ∨ x = url := by
  induction c with
  | nil =>
      right
      simpa [cacheInsert] using hx
  | cons p rest ih =>
      obtain ⟨u, inner⟩ := p
      by_cases hu : u = url
      · simp only [cacheInsert, if_pos hu, List.map_cons, List.mem_cons] at hx ⊢
        exact .inl hx
      · simp only [cacheInsert, if_neg hu, List.map_cons, List.mem_cons] at hx ⊢
        rcases hx with h | h
        · exact .inl (.inl h)
        · rcases ih h with h' | h'
          · exact .inl (.inr h')
          · exact .inr h'

/-- Inserting a validated selector preserves the at-most-one-binding
invariant at both levels of the cache. -/
lemma cacheInsert_WF (c : SelectorCache) (url desc sel : String) (h : cacheWF c) :
    cacheWF (cacheInsert c url desc sel) := by
  induction c with
  | nil =>
      constructor
      · simp [cacheInsert]
      · intro p hp
        simp only [cacheInsert, List.mem_singleton] at hp
        subst hp
        simp
  | cons p rest ih =>
      obtain ⟨u, inner⟩ := p
      obtain ⟨h1, h2⟩ := h
      simp only [List.map_cons, List.nodup_cons] at h1
      have hrest : cacheWF rest := ⟨h1.2, fun q hq => h2 q (List.mem_cons_of_mem _ hq)⟩
      by_cases hu : u = url
      · constructor
        · simp only [cacheInsert, if_pos hu, List.map_cons, List.nodup_cons]
          exact ⟨h1.1, h1.2⟩
        · intro q hq
          simp only [cacheInsert, if_pos hu, List.mem_cons] at hq
          rcases hq with rfl | hq
          · exact innerInsert_nodup inner desc sel (h2 (u, inner) (List.mem_cons_self _ _))
          · exact h2 q (List.mem_cons_of_mem _ hq)
      · obtain ⟨ih1, ih2⟩ := ih hrest
        constructor
        · simp only [cacheInsert, if_neg hu, List.map_cons, List.nodup_cons]
          refine ⟨fun hmem => ?_, ih1⟩
          rcases cacheInsert_keys_subset rest url desc sel u hmem with h' | h'
          · exact h1.1 h'
          · exact hu h'
        · intro q hq
          simp only [cacheInsert, if_neg hu, List.mem_cons] at hq
          rcases hq with rfl | hq
          · exact h2 (u, inner) (List.mem_cons_self _ _)
          · exact ih2 q hq

/-! ## Lemmas: the retry loop -/

/-- A successful resolution always returns a selector that was just
validated against the live page, is non-empty, and was written into the
cache under the (URL, description) pair. -/
lemma resolveAttempts_success_spec (pageUrl description : String)
    (elemExists : String → Bool) (responses : Nat → ModelResult)
    (cache : SelectorCache) :
    ∀ fuel retries queries sel c q,
      resolveAttempts pageUrl description elemExists responses cache fuel retries queries
        = .success sel c q →
      elemExists sel = true ∧ sel ≠ "" ∧ c = cacheInsert cache pageUrl description sel := by
  intro fuel
  induction fuel with
  | zero =>
      intro r qq sel c q h
      simp [resolveAttempts] at h
  | succ fuel ih =>
      intro r qq sel c q h
      simp only [resolveAttempts] at h
      by_cases hc : (strTruthy (cacheLookup cache pageUrl description) && r == 0) = true
      · rw [if_pos hc] at h
        by_cases hne : ((cacheLookup cache pageUrl description).getD "") ≠ ""
        · rw [if_pos hne] at h
          by_cases hex : elemExists ((cacheLookup cache pageUrl description).getD "") = true
          · rw [if_pos hex] at h
            injection h with h1 h2 h3
            subst h1; subst h2
            exact ⟨hex, hne, rfl⟩
          · rw [if_neg hex] at h
            exact ih _ _ _ _ _ h
        · rw [if_neg hne] at h
          exact ih _ _ _ _ _ h
      · rw [if_neg hc] at h
        cases hm : modelAttempt (responses qq) with
        | none =>
            simp only [hm] at h
            exact ih _ _ _ _ _ h
        | some selector =>
            simp only [hm] at h
            by_cases hne : selector ≠ ""
            · rw [if_pos hne] at h
              by_cases hex : elemExists selector = true
              · rw [if_pos hex] at h
                injection h with h1 h2 h3
                subst h1; subst h2
                exact ⟨hex, hne, rfl⟩
              · rw [if_neg hex] at h
                exact ih _ _ _ _ _ h
            · rw [if_neg hne] at h
              exact ih _ _ _ _ _ h

/-- A failed resolution throws exactly the descriptive error naming the
description, and leaves the loaded cache unwritten. -/
lemma resolveAttempts_failure_spec (pageUrl description : String)
    (elemExists : String → Bool) (responses : Nat → ModelResult)
    (cache : SelectorCache) :
    ∀ fuel retries queries m c q,
      resolveAttempts pageUrl description elemExists responses cache fuel retries queries
        = .failure m c q →
      m = "Failed to generate a valid selector for description: " ++ description ∧
      c = cache := by
  intro fuel
  induction fuel with
  | zero =>
      intro r qq m c q h
      simp only [resolveAttempts] at h
      injection h with h1 h2 h3
      exact ⟨h1.symm, h2.symm⟩
  | succ fuel ih =>
      intro r qq m c q h
      simp only [resolveAttempts] at h
      by_cases hc : (strTruthy (cacheLookup cache pageUrl description) && r == 0) = true
      · rw [if_pos hc] at h
        by_cases hne : ((cacheLookup cache pageUrl description).getD "") ≠ ""
        · rw [if_pos hne] at h
          by_cases hex : elemExists ((cacheLookup cache pageUrl description).getD "") = true
          · rw [if_pos hex] at h
            simp at h
          · rw [if_neg hex] at h
            exact ih _ _ _ _ _ h
        · rw [if_neg hne] at h
          exact ih _ _ _ _ _ h
      · rw [if_neg hc] at h
        cases hm : modelAttempt (responses qq) with
        | none =>
            simp only [hm] at h
            exact ih _ _ _ _ _ h
        | some selector =>
            simp only [hm] at h
            by_cases hne : selector ≠ ""
            · rw [if_pos hne] at h
              by_cases hex : elemExists selector = true
              · rw [if_pos hex] at h
                simp at h
              · rw [if_neg hex] at h
                exact ih _ _ _ _ _ h
            · rw [if_neg hne] at h
              exact ih _ _ _ _ _ h

/-- On a non-cache attempt whose model query throws, the iteration
advances the retry counter and continues. -/
lemma resolveAttempts_model_err (pageUrl description : String)
    (elemExists : String → Bool) (responses : Nat → ModelResult)
    (cache : SelectorCache) (fuel retries queries : Nat) (e : String)
    (hc : (strTruthy (cacheLookup cache pageUrl description) && retries == 0) = false)
    (herr : responses queries = .err e) :
    resolveAttempts pageUrl description elemExists responses cache
        (fuel + 1) retries queries =
      resolveAttempts pageUrl description elemExists responses cache
        fuel (retries + 1) (queries + 1) := by
  have hc' : ¬ ((strTruthy (cacheLookup cache pageUrl description) && retries == 0) = true) := by
    simp [hc]
  have hm : modelAttempt (responses queries) = none := by
    rw [herr]; rfl
  simp only [resolveAttempts]
  rw [if_neg hc']
  simp only [hm]

/-- On a non-cache attempt whose model response starts with "ERROR:", the
iteration advances the retry counter and continues (no validation). -/
lemma resolveAttempts_model_error_msg (pageUrl description : String)
    (elemExists : String → Bool) (responses : Nat → ModelResult)
    (cache : SelectorCache) (fuel retries queries : Nat) (t : String)
    (hc : (strTruthy (cacheLookup cache pageUrl description) && retries == 0) = false)
    (hok : responses queries = .ok t) (hpre : jsStartsWith t "ERROR:" = true) :
    resolveAttempts pageUrl description elemExists responses cache
        (fuel + 1) retries queries =
      resolveAttempts pageUrl description elemExists responses cache
        fuel (retries + 1) (queries + 1) := by
  have hc' : ¬ ((strTruthy (cacheLookup cache pageUrl description) && retries == 0) = true) := by
    simp [hc]
  have hm : modelAttempt (responses queries) = none := by
    rw [hok]; simp [modelAttempt, hpre]
  simp only [resolveAttempts]
  rw [if_neg hc']
  simp only [hm]

/-- On a non-cache attempt whose model candidate matches no element, the
iteration advances the retry counter and continues (candidate discarded). -/
lemma resolveAttempts_model_nomatch (pageUrl description : String)
    (elemExists : String → Bool) (responses : Nat → ModelResult)
    (cache : SelectorCache) (fuel retries queries : Nat) (t : String)
    (hc : (strTruthy (cacheLookup cache pageUrl description) && retries == 0) = false)
    (hok : responses queries = .ok t) (hpre : jsStartsWith t "ERROR:" = false)
    (hex : elemExists t = false) :
    resolveAttempts pageUrl description elemExists responses cache
        (fuel + 1) retries queries =
      resolveAttempts pageUrl description elemExists responses cache
        fuel (retries + 1) (queries + 1) := by
  have hc' : ¬ ((strTruthy (cacheLookup cache pageUrl description) && retries == 0) = true) := by
    simp [hc]
  have hm : modelAttempt (responses queries) = some t := by
    rw [hok]; simp [modelAttempt, hpre]
  simp only [resolveAttempts]
  rw [if_neg hc']
  simp only [hm]
  by_cases hne : t ≠ ""
  · rw [if_pos hne, if_neg (by simp [hex])]
  · rw [if_neg hne]

/-- A truthy cached selector that still matches succeeds on the first
attempt with no model query, rewriting the entry with its own value. -/
lemma resolveAttempts_cacheHit_valid (pageUrl description : String)
    (elemExists : String → Bool) (responses : Nat → ModelResult)
    (cache : SelectorCache) (fuel queries : Nat) (sel : String)
    (hlk : cacheLookup cache pageUrl description = some sel) (hne : sel ≠ "")
    (hex : elemExists sel = true) :
    resolveAttempts pageUrl description elemExists responses cache
        (fuel + 1) 0 queries =
      .success sel cache queries := by
  have hc : (strTruthy (cacheLookup cache pageUrl description) && 0 == 0) = true := by
    rw [hlk]; simp [strTruthy, hne]
  have hgd : (cacheLookup cache pageUrl description).getD "" = sel := by
    rw [hlk]; rfl
  simp only [resolveAttempts]
  rw [if_pos hc, hgd, if_pos hne, if_pos hex, cacheInsert_self cache pageUrl description sel hlk]

/-- A truthy cached selector that no longer matches consumes exactly one
attempt (no model query) and falls through to the rest of the loop. -/
lemma resolveAttempts_cacheHit_stale (pageUrl description : String)
    (elemExists : String → Bool) (responses : Nat → ModelResult)
    (cache : SelectorCache) (fuel queries : Nat) (sel : String)
    (hlk : cacheLookup cache pageUrl description = some sel) (hne : sel ≠ "")
    (hex : elemExists sel = false) :
    resolveAttempts pageUrl description elemExists responses cache
        (fuel + 1) 0 queries =
      resolveAttempts pageUrl description elemExists responses cache
        fuel 1 queries := by
  have hc : (strTruthy (cacheLookup cache pageUrl description) && 0 == 0) = true := by
    rw [hlk]; simp [strTruthy, hne]
  have hgd : (cacheLookup cache pageUrl description).getD "" = sel := by
    rw [hlk]; rfl
  simp only [resolveAttempts]
  rw [if_pos hc, hgd, if_pos hne, if_neg (by simp [hex])]

lemma rateLimitSleep_absent : rateLimitSleep none = .sleptMs 30000 := by decide

lemma rateLimitSleep_parsed (s : String) (n : Int) (hne : s ≠ "")
    (hp : jsParseInt s = some n) : rateLimitSleep (some s) = .sleptMs (n * 1000) := by
  simp [rateLimitSleep, hne, hp]

/-! ## Claim theorems -/

/-- C1: every attempt of a resolution call ends either in success or in
advancing the retry counter: a model response beginning with "ERROR:", a
failed model query (including the rate-limit retryable error), and a
candidate selector matching no element each advance the counter and
continue the loop; an exhausted loop throws the single descriptive error
naming the description, and a returned selector is always validated
against the page and never null/empty. -/
theorem getAiSelector_attempts_c1 (pageUrl description : String)
    (elemExists : String → Bool) (responses : Nat → ModelResult)
    (cache : SelectorCache) (options : AILocatorOptions)
    (fuel retries queries : Nat) :
    (∀ sel c q,
      getAiSelector pageUrl elemExists responses cache description options
        = .success sel c q →
      elemExists sel = true ∧ sel ≠ "") ∧
    (∀ m c q,
      getAiSelector pageUrl elemExists responses cache description options
        = .failure m c q →
      m = "Failed to generate a valid selector for description: " ++ description) ∧
    ((strTruthy (cacheLookup cache pageUrl description) && retries == 0) = false →
      (∀ e, responses queries = .err e →
        resolveAttempts pageUrl description elemExists responses cache
            (fuel + 1) retries queries =
          resolveAttempts pageUrl description elemExists responses cache
            fuel (retries + 1) (queries + 1)) ∧
      (∀ t, responses queries = .ok t → jsStartsWith t "ERROR:" = true →
        resolveAttempts pageUrl description elemExists responses cache
            (fuel + 1) retries queries =
          resolveAttempts pageUrl description elemExists responses cache
            fuel (retries + 1) (queries + 1)) ∧
      (∀ t, responses queries = .ok t → jsStartsWith t "ERROR:" = false →
          elemExists t = false →
        resolveAttempts pageUrl description elemExists responses cache
            (fuel + 1) retries queries =
          resolveAttempts pageUrl description elemExists responses cache
            fuel (retries + 1) (queries + 1))) ∧
    (∀ sel, cacheLookup cache pageUrl description = some sel → sel ≠ "" →
        elemExists sel = false →
      resolveAttempts pageUrl description elemExists responses cache
          (fuel + 1) 0 queries =
        resolveAttempts pageUrl description elemExists responses cache
          fuel 1 queries) ∧
    resolveAttempts pageUrl description elemExists responses cache 0 retries queries =
      .failure ("Failed to generate a valid selector for description: " ++ description)
        cache queries := by
  refine ⟨?_, ?_, ?_, ?_, rfl⟩
  · intro sel c q h
    simp only [getAiSelector] at h
    obtain ⟨h1, h2, _⟩ := resolveAttempts_success_spec _ _ _ _ _ _ _ _ _ _ _ h
    exact ⟨h1, h2⟩
  · intro m c q h
    simp only [getAiSelector] at h
    exact (resolveAttempts_failure_spec _ _ _ _ _ _ _ _ _ _ _ h).1
  · intro hc
    exact
      ⟨fun e he => resolveAttempts_model_err _ _ _ _ _ _ _ _ e hc he,
       fun t ht hp => resolveAttempts_model_error_msg _ _ _ _ _ _ _ _ t hc ht hp,
       fun t ht hp hx => resolveAttempts_model_nomatch _ _ _ _ _ _ _ _ t hc ht hp hx⟩
  · intro sel hlk hne hex
    exact resolveAttempts_cacheHit_stale _ _ _ _ _ _ _ sel hlk hne hex

/-- Witness for C1: a thrown model query on an empty cache advances the
retry counter without surfacing the error. -/
theorem getAiSelector_attempts_c1_witness :
    resolveAttempts "u1" "d1" (fun _ => false) (fun _ => .err "boom") [] 1 0 0 =
      resolveAttempts "u1" "d1" (fun _ => false) (fun _ => .err "boom") [] 0 1 1 :=
  (((getAiSelector_attempts_c1 "u1" "d1" (fun _ => false) (fun _ => .err "boom")
      [] {} 0 0 0).2.2.1 rfl).1 "boom" rfl)

/-- C2: cache invariant — a selector is written into the cache (and the
store saved) only on success, after validating that it matches at least
one element at write time; the written cache binds the (URL, description)
pair to exactly that selector and keeps at most one binding per pair;
failed candidates are discarded, leaving the cache untouched. -/
theorem cache_validated_invariant_c2 (pageUrl description : String)
    (elemExists : String → Bool) (responses : Nat → ModelResult)
    (cache : SelectorCache) (options : AILocatorOptions) :
    (∀ sel c q,
      getAiSelector pageUrl elemExists responses cache description options
        = .success sel c q →
      elemExists sel = true ∧
      c = cacheInsert cache pageUrl description sel ∧
      cacheLookup c pageUrl description = some sel ∧
      (cacheWF cache → cacheWF c)) ∧
    (∀ m c q,
      getAiSelector pageUrl elemExists responses cache description options
        = .failure m c q →
      c = cache) := by
  constructor
  · intro sel c q h
    simp only [getAiSelector] at h
    obtain ⟨h1, _, h3⟩ := resolveAttempts_success_spec _ _ _ _ _ _ _ _ _ _ _ h
    subst h3
    exact ⟨h1, rfl, cacheLookup_cacheInsert_self _ _ _ _,
      fun hwf => cacheInsert_WF _ _ _ _ hwf⟩
  · intro m c q h
    simp only [getAiSelector] at h
    exact (resolveAttempts_failure_spec _ _ _ _ _ _ _ _ _ _ _ h).2

/-- Witness for C2: a fresh model selector that matches is cached under
its (URL, description) pair, validated, with a well-formed cache. -/
theorem cache_validated_invariant_c2_witness :
    (fun s => s == "#btn") "#btn" = true ∧
    [("u2", [("d2", "#btn")])] = cacheInsert [] "u2" "d2" "#btn" ∧
    cacheLookup [("u2", [("d2", "#btn")])] "u2" "d2" = some "#btn" ∧
    (cacheWF [] → cacheWF [("u2", [("d2", "#btn")])]) :=
  (cache_validated_invariant_c2 "u2" "d2" (fun s => s == "#btn")
      (fun _ => .ok "#btn") [] {}).1
    "#btn" [("u2", [("d2", "#btn")])] 1 (by decide)

/-- C3: `loadCache` never raises: on every state of the persisted cache
file it returns a mapping — the parsed two-level mapping when the file is
present and parses, and the empty mapping on any read or parse failure. -/
theorem loadCache_never_raises_c3 (parse : String → Option SelectorCache)
    (fs : FileState) :
    (∃ s c, fs = .present s ∧ parse s = some c ∧ loadCache parse fs = c) ∨
    loadCache parse fs = [] := by
  cases fs with
  | present s =>
      cases hp : parse s with
      | some c => exact .inl ⟨s, c, rfl, hp, by simp [loadCache, hp]⟩
      | none => exact .inr (by simp [loadCache, hp])
  | absent => exact .inr rfl
  | unreadable => exact .inr rfl

/-- C4: a cached token whose age is at most 59 minutes is returned without
a new acquisition; with no cached token, or one older than 59 minutes, a
fresh token is acquired and the cache entry (token + timestamp) replaced
before the token is returned. -/
theorem getValidAccessToken_expiry_c4 (tokenCache : Option TokenCache)
    (currentTime : Int) (newToken : String) :
    (∀ tc, tokenCache = some tc → currentTime - tc.timestamp ≤ 59 * 60 * 1000 →
      getValidAccessToken tokenCache currentTime newToken = (tc.token, tc, false)) ∧
    (tokenCache = none →
      getValidAccessToken tokenCache currentTime newToken =
        (newToken, ⟨newToken, currentTime⟩, true)) ∧
    (∀ tc, tokenCache = some tc → currentTime - tc.timestamp > 59 * 60 * 1000 →
      getValidAccessToken tokenCache currentTime newToken =
        (newToken, ⟨newToken, currentTime⟩, true)) := by
  refine ⟨?_, ?_, ?_⟩
  · rintro tc rfl hage
    simp only [getValidAccessToken]
    rw [if_neg (not_lt.mpr hage)]
  · rintro rfl
    rfl
  · rintro tc rfl hage
    simp only [getValidAccessToken]
    rw [if_pos hage]

/-- Witness for C4: a 1-minute-old token is reused; an absent and an
expired token are refreshed with the cache entry replaced. -/
theorem getValidAccessToken_expiry_c4_witness :
    getValidAccessToken (some ⟨"t0", 0⟩) 60000 "t1" = ("t0", ⟨"t0", 0⟩, false) ∧
    getValidAccessToken none 5 "t1" = ("t1", ⟨"t1", 5⟩, true) ∧
    getValidAccessToken (some ⟨"t0", 0⟩) 3540001 "t1" =
      ("t1", ⟨"t1", 3540001⟩, true) :=
  ⟨(getValidAccessToken_expiry_c4 (some ⟨"t0", 0⟩) 60000 "t1").1
      ⟨"t0", 0⟩ rfl (by decide),
   (getValidAccessToken_expiry_c4 none 5 "t1").2.1 rfl,
   (getValidAccessToken_expiry_c4 (some ⟨"t0", 0⟩) 3540001 "t1").2.2
      ⟨"t0", 0⟩ rfl (by decide)⟩

/-- C5: on a 429 response the client reads the Retry-After hint in seconds
(30 when the header is absent), sleeps that many seconds, and then fails
the call with the retryable rate-limit error, having issued exactly one
request — it never re-issues the request itself. -/
theorem queryGeminiAPI_rateLimit_c5 (env : GeminiEnv)
    (tokenCache : Option TokenCache) (currentTime : Int) (newToken : String)
    (resp : HttpResponse) (h429 : resp.status = 429) :
    (queryGeminiAPI env tokenCache currentTime newToken resp).result =
      .error "Gemini API request failed due to rate limiting." ∧
    (queryGeminiAPI env tokenCache currentTime newToken resp).requestsIssued = 1 ∧
    (resp.retryAfterHeader = none →
      (queryGeminiAPI env tokenCache currentTime newToken resp).slept =
        .sleptMs 30000) ∧
    (∀ s n, resp.retryAfterHeader = some s → s ≠ "" → jsParseInt s = some n →
      (queryGeminiAPI env tokenCache currentTime newToken resp).slept =
        .sleptMs (n * 1000)) := by
  refine ⟨?_, rfl, ?_, ?_⟩
  · simp [queryGeminiAPI, responseResult, h429]
  · intro hnone
    simp [queryGeminiAPI, h429, hnone, rateLimitSleep_absent]
  · intro s n hs hne hp
    simp [queryGeminiAPI, h429, hs, rateLimitSleep_parsed s n hne hp]

/-- Witness for C5: a 429 with Retry-After "5" sleeps 5000 ms and fails
with the retryable error. -/
theorem queryGeminiAPI_rateLimit_c5_witness :
    (queryGeminiAPI ⟨some "p", some "loc", some "gem", some "key"⟩ none 0 "tok"
        ⟨429, "Too Many Requests", some "5", none⟩).result =
      .error "Gemini API request failed due to rate limiting." ∧
    (queryGeminiAPI ⟨some "p", some "loc", some "gem", some "key"⟩ none 0 "tok"
        ⟨429, "Too Many Requests", some "5", none⟩).slept = .sleptMs (5 * 1000) :=
  ⟨(queryGeminiAPI_rateLimit_c5 _ _ _ _ _ rfl).1,
   (queryGeminiAPI_rateLimit_c5 _ _ _ _ _ rfl).2.2.2 "5" 5 rfl (by decide) (by decide)⟩

/-- C6: cache-hit idempotence — after one resolution call succeeds, a
subsequent call for the same pair on an unchanged page returns the same
selector on its first attempt from the cache, with zero model queries and
the cache unchanged; and a truthy cached selector that no longer matches
consumes exactly one attempt (cache is consulted only at retry counter
zero) before later attempts fall through to fresh model queries. -/
theorem cache_hit_idempotent_c6 (pageUrl description : String)
    (elemExists : String → Bool) (cache : SelectorCache) (sel : String) :
    (∀ responses c q options,
      getAiSelector pageUrl elemExists responses cache description options
        = .success sel c q →
      ∀ responses' options', 0 < maxRetriesOf options' →
        getAiSelector pageUrl elemExists responses' c description options'
          = .success sel c 0) ∧
    (cacheLookup cache pageUrl description = some sel → sel ≠ "" →
      elemExists sel = false →
      ∀ responses fuel queries,
        resolveAttempts pageUrl description elemExists responses cache
            (fuel + 1) 0 queries =
          resolveAttempts pageUrl description elemExists responses cache
            fuel 1 queries) := by
  constructor
  · intro responses c q options h responses' options' hpos
    simp only [getAiSelector] at h
    obtain ⟨h1, h2, h3⟩ := resolveAttempts_success_spec _ _ _ _ _ _ _ _ _ _ _ h
    have hlk : cacheLookup c pageUrl description = some sel := by
      rw [h3]
      exact cacheLookup_cacheInsert_self _ _ _ _
    obtain ⟨k, hk⟩ : ∃ k, (maxRetriesOf options').toNat = k + 1 :=
      ⟨(maxRetriesOf options').toNat - 1, by omega⟩
    simp only [getAiSelector]
    rw [hk]
    exact resolveAttempts_cacheHit_valid _ _ _ _ _ _ _ sel hlk h2 h1
  · intro hlk hne hex responses fuel queries
    exact resolveAttempts_cacheHit_stale _ _ _ _ _ _ _ sel hlk hne hex

/-- Witness for C6: after a first successful resolution, the second call
succeeds from the cache even when every model query would throw. -/
theorem cache_hit_idempotent_c6_witness :
    getAiSelector "u3" (fun s => s == "#ok") (fun _ => .err "offline")
        [("u3", [("d3", "#ok")])] "d3" {} =
      .success "#ok" [("u3", [("d3", "#ok")])] 0 :=
  (cache_hit_idempotent_c6 "u3" "d3" (fun s => s == "#ok") [] "#ok").1
    (fun _ => .ok "#ok") [("u3", [("d3", "#ok")])] 1 {} (by decide)
    (fun _ => .err "offline") {} (by decide)

/-- C7 counterexample: the API-key environment variable set to the empty
string is a set variable under which the token-authenticated path is used
and the credential provider is invoked, and the endpoint query reports
the token-based endpoint — refuting "exactly when the API key is set". -/
theorem apiKey_empty_c7_counterexample :
    (some "" : Option String) ≠ none ∧
    getCurrentAPIEndpoint (some "") =
      "Access token based endpoint (aiplatform.googleapis.com)" ∧
    (queryGeminiAPI ⟨some "p", some "loc", some "gem", some ""⟩ none 0 "tok"
        ⟨200, "OK", none, some "#x"⟩).credentialInvoked = true ∧
    (queryGeminiAPI ⟨some "p", some "loc", some "gem", some ""⟩ none 0 "tok"
        ⟨200, "OK", none, some "#x"⟩).url =
      tokenEndpointUrl ⟨some "p", some "loc", some "gem", some ""⟩ := by
  exact ⟨by simp, rfl, rfl, rfl⟩

/-- C7 (amended): for every model query, a truthy (set and non-empty) API
key selects the key-authenticated endpoint and the credential provider is
never invoked; a falsy key selects the token-authenticated endpoint with
a bearer token from `getValidAccessToken`; and `getCurrentAPIEndpoint`
reports the key-based endpoint exactly when the key is truthy. -/
theorem authMode_selection_c7 (env : GeminiEnv) (tokenCache : Option TokenCache)
    (currentTime : Int) (newToken : String) (resp : HttpResponse) :
    (strTruthy env.apiKey = true →
      (queryGeminiAPI env tokenCache currentTime newToken resp).url =
        keyEndpointUrl env (jsInterp env.apiKey) ∧
      (queryGeminiAPI env tokenCache currentTime newToken resp).credentialInvoked
        = false ∧
      (queryGeminiAPI env tokenCache currentTime newToken resp).authHeader = none ∧
      (queryGeminiAPI env tokenCache currentTime newToken resp).tokenCacheAfter
        = tokenCache) ∧
    (strTruthy env.apiKey = false →
      (queryGeminiAPI env tokenCache currentTime newToken resp).url =
        tokenEndpointUrl env ∧
      (queryGeminiAPI env tokenCache currentTime newToken resp).credentialInvoked
        = true ∧
      (queryGeminiAPI env tokenCache currentTime newToken resp).authHeader =
        some ("Bearer " ++ (getValidAccessToken tokenCache currentTime newToken).1) ∧
      (queryGeminiAPI env tokenCache currentTime newToken resp).tokenCacheAfter =
        some (getValidAccessToken tokenCache currentTime newToken).2.1) ∧
    (getCurrentAPIEndpoint env.apiKey =
        "API key based endpoint (generativelanguage.googleapis.com)" ↔
      strTruthy env.apiKey = true) := by
  refine ⟨?_, ?_, ?_⟩
  · intro hk
    refine ⟨?_, ?_, ?_, ?_⟩ <;> simp [queryGeminiAPI, hk]
  · intro hk
    refine ⟨?_, ?_, ?_, ?_⟩ <;> simp [queryGeminiAPI, hk]
  · constructor
    · intro h
      by_cases hk : strTruthy env.apiKey
      · exact hk
      · rw [getCurrentAPIEndpoint, if_neg (by simp [hk])] at h
        exact absurd h (by decide)
    · intro hk
      rw [getCurrentAPIEndpoint, if_pos hk]

/-- Witness for C7: a non-empty key bypasses the credential provider; an
absent key invokes it. -/
theorem authMode_selection_c7_witness :
    (queryGeminiAPI ⟨some "p2", some "loc2", some "gem2", some "k2"⟩ none 0 "tok2"
        ⟨200, "OK", none, some "#y"⟩).credentialInvoked = false ∧
    (queryGeminiAPI ⟨some "p2", some "loc2", some "gem2", none⟩ none 0 "tok2"
        ⟨200, "OK", none, some "#y"⟩).credentialInvoked = true :=
  ⟨((authMode_selection_c7 ⟨some "p2", some "loc2", some "gem2", some "k2"⟩
        none 0 "tok2" ⟨200, "OK", none, some "#y"⟩).1 (by decide)).2.1,
   ((authMode_selection_c7 ⟨some "p2", some "loc2", some "gem2", none⟩
        none 0 "tok2" ⟨200, "OK", none, some "#y"⟩).2.1 (by decide)).2.1⟩

/-- C8: the highlight effect on a matched element saves outline and
z-index, applies the highlight styles (all other styling untouched), and
after the configured duration (default 3000 ms) restores exactly the
saved element style; with no matching element it completes as a no-op. -/
theorem highlight_frame_c8 (st : ElementStyle) (dur : Int) :
    highlightEffect (some st) dur =
      ⟨some { outline := "3px solid red", zIndex := "10000",
              otherStyles := st.otherStyles },
       some st, some dur⟩ ∧
    highlightEffect none dur = ⟨none, none, none⟩ ∧
    effectiveHighlightDuration {} = 3000 :=
  ⟨rfl, rfl, rfl⟩

/-- C9 counterexample: `retries := -1` is a public-interface value under
which the very call that would succeed in one attempt instead fails
immediately with zero attempts and zero model queries — a requestable
zero-attempt resolution. -/
theorem retries_negative_c9_counterexample :
    getAiSelector "u4" (fun _ => true) (fun _ => .ok "#go") [] "d4"
        { retries := some (-1) } =
      .failure "Failed to generate a valid selector for description: d4" [] 0 ∧
    getAiSelector "u4" (fun _ => true) (fun _ => .ok "#go") [] "d4"
        { retries := some 1 } =
      .success "#go" [("u4", [("d4", "#go")])] 1 := by
  exact ⟨by decide, by decide⟩

/-- C9 (amended): the maxRetries default applies to every falsy retries
value — `retries = 0` and an absent retries both yield up to 3 attempts —
so a falsy value cannot request a zero-attempt resolution; a negative
retries value, however, is used as given and produces an immediate
zero-attempt failure. -/
theorem maxRetries_default_c9 (pageUrl description : String)
    (elemExists : String → Bool) (responses : Nat → ModelResult)
    (cache : SelectorCache) (options : AILocatorOptions) :
    (options.retries = some 0 ∨ options.retries = none →
      maxRetriesOf options = 3 ∧
      getAiSelector pageUrl elemExists responses cache description options =
        resolveAttempts pageUrl description elemExists responses cache 3 0 0) ∧
    (∀ n : Int, options.retries = some n → n < 0 →
      getAiSelector pageUrl elemExists responses cache description options =
        .failure ("Failed to generate a valid selector for description: "
            ++ description)
          cache 0) := by
  constructor
  · intro h
    have hm : maxRetriesOf options = 3 := by
      rcases h with h | h <;> simp [maxRetriesOf, h]
    refine ⟨hm, ?_⟩
    simp only [getAiSelector, hm]
    rfl
  · intro n hn hneg
    have hm : maxRetriesOf options = n := by
      simp only [maxRetriesOf, hn]
      rw [if_neg (by omega : ¬ n = 0)]
    have ht : (maxRetriesOf options).toNat = 0 := by
      rw [hm]; omega
    simp only [getAiSelector, ht]
    rfl

/-- Witness for C9: `retries = 0` gets the 3-attempt default; a negative
value yields the immediate zero-attempt failure. -/
theorem maxRetries_default_c9_witness :
    (maxRetriesOf { retries := some 0 } = 3 ∧
      getAiSelector "u5" (fun _ => false) (fun _ => .err "e") [] "d5"
          { retries := some 0 } =
        resolveAttempts "u5" "d5" (fun _ => false) (fun _ => .err "e") [] 3 0 0) ∧
    getAiSelector "u5" (fun _ => false) (fun _ => .err "e") [] "d5"
        { retries := some (-2) } =
      .failure "Failed to generate a valid selector for description: d5" [] 0 :=
  ⟨(maxRetries_default_c9 "u5" "d5" (fun _ => false) (fun _ => .err "e") [] _).1
      (.inl rfl),
   (maxRetries_default_c9 "u5" "d5" (fun _ => false) (fun _ => .err "e") [] _).2
      (-2) rfl (by decide)⟩

/-- C10: the per-attempt timeout option is inert — the resolver never
reads `options.timeout`, so the outcome (result and cache alike) is
identical for any two timeout values, all other inputs equal. -/
theorem timeout_inert_c10 (pageUrl : String) (elemExists : String → Bool)
    (responses : Nat → ModelResult) (cache : SelectorCache)
    (description : String) (options : AILocatorOptions) (t1 t2 : Option Int) :
    getAiSelector pageUrl elemExists responses cache description
        { options with timeout := t1 } =
      getAiSelector pageUrl elemExists responses cache description
        { options with timeout := t2 } := rfl

end AILocator
